import Mathlib

/-!
Verification of the `ProjectionSystem` component
(`src/packages/core/src/projection/ProjectionSystem.ts`).

The component tracks three optional rectangles (destination, source,
default frame), derives a 2D affine clip-space projection matrix from the
resolved source frame, optionally appends an externally set transform, and
pushes the result into the renderer's global uniform store.

Scalars are embedded as rationals (exact arithmetic).  A second, parallel
embedding over an IEEE-style extended number type (`JsNum`, with signed
infinities and NaN) is given further below for the degenerate-frame claim,
where JavaScript's division-by-zero semantics is the point at issue.
-/

namespace Pixi

/-- A rectangle `{x, y, width, height}` (`PIXI.Rectangle`). -/
structure Rectangle where
  x : ℚ
  y : ℚ
  width : ℚ
  height : ℚ
deriving DecidableEq, Repr

/-- A 2D affine matrix `{a, b, c, d, tx, ty}` (`PIXI.Matrix`), mapping a
point `(px, py)` to `(a*px + c*py + tx, b*px + d*py + ty)`. -/
structure Matrix where
  a : ℚ
  b : ℚ
  c : ℚ
  d : ℚ
  tx : ℚ
  ty : ℚ
deriving DecidableEq, Repr

/-- `new Matrix()` constructs the identity. -/
def Matrix.identity : Matrix := ⟨1, 0, 0, 1, 0, 0⟩

/-- A 2D point. -/
structure Point where
  x : ℚ
  y : ℚ
deriving DecidableEq, Repr

/-- Apply the affine matrix to a point. -/
def Matrix.transformPoint (m : Matrix) (p : Point) : Point :=
  ⟨m.a * p.x + m.c * p.y + m.tx, m.b * p.x + m.d * p.y + m.ty⟩

/-- Modelled from the spec: `Matrix.append` lives in `@pixi/math`, which is
not under `src/`.  Per spec section 4.3 step 3 and the section 8 test
property, `m.append t` composes so that `t` is applied after `m` (in clip
space): the result maps `p` to `t.transformPoint (m.transformPoint p)`. -/
def Matrix.append (m t : Matrix) : Matrix :=
  { a := t.a * m.a + t.c * m.b
    b := t.b * m.a + t.d * m.b
    c := t.a * m.c + t.c * m.d
    d := t.b * m.c + t.d * m.d
    tx := t.a * m.tx + t.c * m.ty + t.tx
    ty := t.b * m.tx + t.d * m.ty + t.ty }

/-- JavaScript `x || y` on nullable object references: a non-null reference
is truthy, so the left operand wins exactly when it is non-null. -/
def jsOr {α : Type} (x y : Option α) : Option α :=
  match x with
  | some v => some v
  | none => y

@[simp] theorem jsOr_some {α : Type} (v : α) (y : Option α) : jsOr (some v) y = some v := rfl

@[simp] theorem jsOr_none {α : Type} (y : Option α) : jsOr none y = y := rfl

/-- Mutable state of the `ProjectionSystem` instance. -/
structure ProjectionSystem where
  destinationFrame : Option Rectangle
  sourceFrame : Option Rectangle
  defaultFrame : Option Rectangle
  projectionMatrix : Matrix
  transform : Option Matrix
deriving DecidableEq, Repr

/-- The constructor: all frames `null`, `projectionMatrix = new Matrix()`
(identity), `transform = null`. -/
def ProjectionSystem.make : ProjectionSystem :=
  { destinationFrame := none
    sourceFrame := none
    defaultFrame := none
    projectionMatrix := Matrix.identity
    transform := none }

/-- Lines 77-78 of `update`:
`this.destinationFrame = destinationFrame || this.destinationFrame || this.defaultFrame;`
`this.sourceFrame = sourceFrame || this.sourceFrame || destinationFrame;`
Note the second fallback of the source frame is the raw `destinationFrame`
argument, not the just-resolved `this.destinationFrame`. -/
def ProjectionSystem.resolveFrames (ps : ProjectionSystem)
    (destinationFrame sourceFrame : Option Rectangle) : ProjectionSystem :=
  { ps with
    destinationFrame := jsOr destinationFrame (jsOr ps.destinationFrame ps.defaultFrame)
    sourceFrame := jsOr sourceFrame (jsOr ps.sourceFrame destinationFrame) }

/-- `calculateProjection(_destinationFrame, sourceFrame, _resolution, root)`:
only `a`, `d`, `tx`, `ty` of the projection matrix are assigned (the
`pm.identity()` call is commented out in the source, so `b` and `c` keep
whatever value they had); `_destinationFrame` and `_resolution` are unused. -/
def ProjectionSystem.calculateProjection (pm : Matrix)
    (_destinationFrame : Option Rectangle) (sourceFrame : Rectangle)
    (_resolution : ℚ) (root : Bool) : Matrix :=
  let sign : ℚ := if !root then 1 else -1
  { pm with
    a := 1 / sourceFrame.width * 2
    d := sign * (1 / sourceFrame.height * 2)
    tx := -1 - sourceFrame.x * (1 / sourceFrame.width * 2)
    ty := -sign - sourceFrame.y * (sign * (1 / sourceFrame.height * 2)) }

/-- `if (this.transform) { this.projectionMatrix.append(this.transform); }` -/
def applyTransform (pm : Matrix) (transform : Option Matrix) : Matrix :=
  match transform with
  | some t => pm.append t
  | none => pm

/-- Modelled from the spec: the renderer's global uniform store
(`renderer.globalUniforms`) is not under `src/`.  Per spec sections 3 and 6
it is a key/value store holding the projection matrix under a well-known
key, with an explicit `update()` upload operation (counted here). -/
structure UniformStore where
  projectionMatrix : Option Matrix
  updateCount : Nat
deriving DecidableEq, Repr

/-- Modelled from the spec: a bound shader exposes a `uniforms.globals`
group; groups are identified here by an opaque tag. -/
structure Shader where
  globals : Nat
deriving DecidableEq, Repr

/-- Modelled from the spec: the host renderer as seen by this component —
the global uniform store, the nullable currently-bound shader
(`renderer.shader.shader`), and a log of `syncUniformGroup` calls. -/
structure RendererState where
  globalUniforms : UniformStore
  shader : Option Shader
  syncedGroups : List Nat
deriving DecidableEq, Repr

/-- Lines 90-97 of `update`: write the projection matrix into the global
uniform store, call its `update()` upload, and, when a shader is bound,
re-synchronize its `globals` uniform group. -/
def RendererState.push (r : RendererState) (pm : Matrix) : RendererState :=
  { globalUniforms :=
      { projectionMatrix := some pm
        updateCount := r.globalUniforms.updateCount + 1 }
    shader := r.shader
    syncedGroups :=
      match r.shader with
      | some s => r.syncedGroups ++ [s.globals]
      | none => r.syncedGroups }

/-- `update(destinationFrame, sourceFrame, resolution, root)`: resolve the
frames, recompute the projection matrix in place from the resolved source
frame, append `this.transform` when set, and push to the renderer.  When the
resolved source frame is still `null`, `calculateProjection` dereferences
`null.width` and the call throws (modelled as `none`). -/
def ProjectionSystem.update (ps : ProjectionSystem) (r : RendererState)
    (destinationFrame sourceFrame : Option Rectangle)
    (resolution : ℚ) (root : Bool) : Option (ProjectionSystem × RendererState) :=
  ((ps.resolveFrames destinationFrame sourceFrame).sourceFrame).map fun sf =>
    let pm := applyTransform
      (ProjectionSystem.calculateProjection ps.projectionMatrix
        (ps.resolveFrames destinationFrame sourceFrame).destinationFrame sf resolution root)
      ps.transform
    ({ ps.resolveFrames destinationFrame sourceFrame with projectionMatrix := pm },
     r.push pm)

/-- `setTransform(_matrix)` is a stub: the body is commented out. -/
def ProjectionSystem.setTransform (ps : ProjectionSystem) (_matrix : Matrix) :
    ProjectionSystem :=
  ps

/-! Concrete fixtures used in counterexamples and witnesses. -/

def frame800 : Rectangle := ⟨0, 0, 800, 600⟩

def frame2 : Rectangle := ⟨0, 0, 2, 2⟩

def shearT : Matrix := ⟨1, 1, 0, 1, 0, 0⟩

def rPlain : RendererState := ⟨⟨none, 0⟩, none, []⟩

def rBound : RendererState := ⟨⟨none, 0⟩, some ⟨7⟩, []⟩

/-! General lemmas about the embedded operations. -/

theorem Matrix.transformPoint_append (m t : Matrix) (p : Point) :
    (m.append t).transformPoint p = t.transformPoint (m.transformPoint p) := by
  simp only [Matrix.append, Matrix.transformPoint, Point.mk.injEq]
  constructor <;> ring

theorem ProjectionSystem.calculateProjection_b (pm : Matrix) (dF : Option Rectangle)
    (sf : Rectangle) (res : ℚ) (root : Bool) :
    (ProjectionSystem.calculateProjection pm dF sf res root).b = pm.b := rfl

theorem ProjectionSystem.calculateProjection_c (pm : Matrix) (dF : Option Rectangle)
    (sf : Rectangle) (res : ℚ) (root : Bool) :
    (ProjectionSystem.calculateProjection pm dF sf res root).c = pm.c := rfl

theorem ProjectionSystem.calculateProjection_idem (pm : Matrix)
    (d1 d2 : Option Rectangle) (sf : Rectangle) (r1 r2 : ℚ) (root : Bool) :
    ProjectionSystem.calculateProjection
        (ProjectionSystem.calculateProjection pm d1 sf r1 root) d2 sf r2 root
      = ProjectionSystem.calculateProjection pm d1 sf r1 root := rfl

theorem ProjectionSystem.update_resolved (ps : ProjectionSystem) (r : RendererState)
    (dF sF : Option Rectangle) (res : ℚ) (root : Bool) (sf : Rectangle)
    (h : (ps.resolveFrames dF sF).sourceFrame = some sf) :
    ps.update r dF sF res root =
      some ({ ps.resolveFrames dF sF with
                projectionMatrix := applyTransform
                  (ProjectionSystem.calculateProjection ps.projectionMatrix
                    (ps.resolveFrames dF sF).destinationFrame sf res root) ps.transform },
            r.push (applyTransform
                  (ProjectionSystem.calculateProjection ps.projectionMatrix
                    (ps.resolveFrames dF sF).destinationFrame sf res root) ps.transform)) := by
  unfold ProjectionSystem.update
  rw [h]
  rfl

theorem ProjectionSystem.update_unresolved (ps : ProjectionSystem) (r : RendererState)
    (dF sF : Option Rectangle) (res : ℚ) (root : Bool)
    (h : (ps.resolveFrames dF sF).sourceFrame = none) :
    ps.update r dF sF res root = none := by
  unfold ProjectionSystem.update
  rw [h]
  rfl

/-! Claim C1. -/

def psDefaultOnly : ProjectionSystem :=
  { ProjectionSystem.make with defaultFrame := some frame800 }

/-- Claim C1 fails on the code: with no prior frames, both arguments null and
`defaultFrame` pre-populated, line 78 falls back to the raw `destinationFrame`
argument (null), so the stored `sourceFrame` stays null instead of becoming
`defaultFrame`. -/
theorem C1_counterexample :
    ¬ ((psDefaultOnly.resolveFrames none none).destinationFrame = psDefaultOnly.defaultFrame
        ∧ (psDefaultOnly.resolveFrames none none).sourceFrame = psDefaultOnly.defaultFrame) := by
  intro h
  exact Option.noConfusion h.2

/-- Claim C1 (amended): with no prior frames ever stored, null arguments and a
pre-populated `defaultFrame`, frame resolution stores `defaultFrame` as the
destination, but the stored source frame falls back to the raw null
`destinationFrame` argument and remains null. -/
theorem C1_default_frame_fallback (ps : ProjectionSystem) (df : Rectangle)
    (hd : ps.destinationFrame = none) (hs : ps.sourceFrame = none)
    (hdf : ps.defaultFrame = some df) :
    (ps.resolveFrames none none).destinationFrame = some df
      ∧ (ps.resolveFrames none none).sourceFrame = none := by
  simp [ProjectionSystem.resolveFrames, hd, hs, hdf]

/-- Claim C1 witness: the amended statement at a concrete state whose
`defaultFrame` is `{x:0, y:0, width:800, height:600}`. -/
theorem C1_witness :
    (psDefaultOnly.resolveFrames none none).destinationFrame = some frame800
      ∧ (psDefaultOnly.resolveFrames none none).sourceFrame = none :=
  C1_default_frame_fallback psDefaultOnly frame800 rfl rfl rfl

/-! Claim C2. -/

/-- Claim C2 fails on the code: `calculateProjection` never assigns `b`, so
from a matrix whose `b` is 1 (left there by an earlier appended shear) a call
does not give `b = 0`. -/
theorem C2_counterexample :
    ¬ (ProjectionSystem.calculateProjection shearT none frame800 1 false).b = 0 := by
  simp [ProjectionSystem.calculateProjection, shearT]

/-- Claim C2 (amended): after any call to `calculateProjection` with source
frame `sf` and flag `root`, with `sign = -1` if root else `+1`, the matrix
satisfies `a = 2/width`, `d = sign * 2/height`, `tx = -1 - x * a`,
`ty = -sign - y * d`, while `b` and `c` keep their previous values (they are
not written, hence equal 0 only when they already were); from the freshly
constructed identity matrix, the frame `{x:0, y:0, w:800, h:600}` with
`root = false` yields `a = 1/400`, `d = 1/300`, `tx = -1`, `ty = -1`. -/
theorem C2_calculateProjection_formula :
    (∀ (pm : Matrix) (dF : Option Rectangle) (sf : Rectangle) (res : ℚ) (root : Bool),
      (ProjectionSystem.calculateProjection pm dF sf res root).a = 2 / sf.width
        ∧ (ProjectionSystem.calculateProjection pm dF sf res root).d =
            (if root then -1 else 1) * (2 / sf.height)
        ∧ (ProjectionSystem.calculateProjection pm dF sf res root).b = pm.b
        ∧ (ProjectionSystem.calculateProjection pm dF sf res root).c = pm.c
        ∧ (ProjectionSystem.calculateProjection pm dF sf res root).tx =
            -1 - sf.x * (ProjectionSystem.calculateProjection pm dF sf res root).a
        ∧ (ProjectionSystem.calculateProjection pm dF sf res root).ty =
            -(if root then (-1 : ℚ) else 1) - sf.y *
              (ProjectionSystem.calculateProjection pm dF sf res root).d)
    ∧ ProjectionSystem.calculateProjection Matrix.identity none frame800 1 false
        = ⟨1/400, 0, 0, 1/300, -1, -1⟩ := by
  constructor
  · intro pm dF sf res root
    have hsign : (if !root then (1 : ℚ) else -1) = (if root then (-1 : ℚ) else 1) := by
      cases root <;> rfl
    have ha : (ProjectionSystem.calculateProjection pm dF sf res root).a = 2 / sf.width := by
      show 1 / sf.width * 2 = 2 / sf.width
      ring
    have hd : (ProjectionSystem.calculateProjection pm dF sf res root).d =
        (if root then (-1 : ℚ) else 1) * (2 / sf.height) := by
      show (if !root then (1 : ℚ) else -1) * (1 / sf.height * 2) =
        (if root then (-1 : ℚ) else 1) * (2 / sf.height)
      rw [hsign]
      ring
    have hty : (ProjectionSystem.calculateProjection pm dF sf res root).ty =
        -(if root then (-1 : ℚ) else 1) - sf.y *
          (ProjectionSystem.calculateProjection pm dF sf res root).d := by
      show -(if !root then (1 : ℚ) else -1) -
            sf.y * ((if !root then (1 : ℚ) else -1) * (1 / sf.height * 2)) =
          -(if root then (-1 : ℚ) else 1) -
            sf.y * ((if !root then (1 : ℚ) else -1) * (1 / sf.height * 2))
      rw [hsign]
    exact ⟨ha, hd, rfl, rfl, rfl, hty⟩
  · simp only [ProjectionSystem.calculateProjection, Matrix.identity, frame800,
      Bool.not_false, if_true, Matrix.mk.injEq]
    norm_num

/-! Claim C7. -/

/-- Claim C7: for every source frame, `d(root=true) = -d(root=false)`, and
when the frame has `y = 0` also `ty(root=true) = -ty(root=false)`, whatever
matrices, destination frames and resolutions the two calls start from. -/
theorem C7_sign_flip (pm pm2 : Matrix) (dF dF2 : Option Rectangle)
    (sf : Rectangle) (res res2 : ℚ) :
    (ProjectionSystem.calculateProjection pm dF sf res true).d
        = -(ProjectionSystem.calculateProjection pm2 dF2 sf res2 false).d
    ∧ (sf.y = 0 →
        (ProjectionSystem.calculateProjection pm dF sf res true).ty
          = -(ProjectionSystem.calculateProjection pm2 dF2 sf res2 false).ty) := by
  constructor
  · show (if !true then (1 : ℚ) else -1) * (1 / sf.height * 2) =
      -((if !false then (1 : ℚ) else -1) * (1 / sf.height * 2))
    norm_num
  · intro hy
    show -(if !true then (1 : ℚ) else -1) -
          sf.y * ((if !true then (1 : ℚ) else -1) * (1 / sf.height * 2)) =
        -(-(if !false then (1 : ℚ) else -1) -
          sf.y * ((if !false then (1 : ℚ) else -1) * (1 / sf.height * 2)))
    rw [hy]
    norm_num

/-- Claim C7 witness: the `ty` flip at the concrete frame
`{x:0, y:0, w:800, h:600}`. -/
theorem C7_witness :
    (ProjectionSystem.calculateProjection Matrix.identity none frame800 1 true).ty
      = -(ProjectionSystem.calculateProjection Matrix.identity none frame800 1 false).ty :=
  (C7_sign_flip Matrix.identity Matrix.identity none none frame800 1 1).2 rfl

/-! Claim C8. -/

/-- Claim C8: the `resolution` argument has no effect — two `update` calls
from the same component and renderer state that differ only in resolution
produce identical results (component state, projection matrix and value
pushed to the global uniform store alike). -/
theorem C8_resolution_agnostic (ps : ProjectionSystem) (r : RendererState)
    (dF sF : Option Rectangle) (res1 res2 : ℚ) (root : Bool) :
    ps.update r dF sF res1 root = ps.update r dF sF res2 root := rfl

/-! Claim C5. -/

/-- Claim C5: `calculateProjection` never writes `b` or `c`, and an `update`
whose transform is null leaves the `b`/`c` components of `projectionMatrix`
exactly as they were — rotation/shear residue from a previously appended
transform is never reset to zero. -/
theorem C5_bc_never_written :
    (∀ (pm : Matrix) (dF : Option Rectangle) (sf : Rectangle) (res : ℚ) (root : Bool),
        (ProjectionSystem.calculateProjection pm dF sf res root).b = pm.b
        ∧ (ProjectionSystem.calculateProjection pm dF sf res root).c = pm.c)
    ∧ (∀ (ps : ProjectionSystem) (r : RendererState) (dF sF : Option Rectangle)
        (res : ℚ) (root : Bool) (s1 : ProjectionSystem) (r1 : RendererState),
        ps.transform = none →
        ps.update r dF sF res root = some (s1, r1) →
        s1.projectionMatrix.b = ps.projectionMatrix.b
        ∧ s1.projectionMatrix.c = ps.projectionMatrix.c) := by
  constructor
  · intro pm dF sf res root
    exact ⟨rfl, rfl⟩
  · intro ps r dF sF res root s1 r1 htr h
    rcases hres : (ps.resolveFrames dF sF).sourceFrame with _ | sf
    · rw [ProjectionSystem.update_unresolved ps r dF sF res root hres] at h
      exact Option.noConfusion h
    · rw [ProjectionSystem.update_resolved ps r dF sF res root sf hres] at h
      rw [Option.some.injEq, Prod.mk.injEq] at h
      obtain ⟨h1, -⟩ := h
      rw [← h1, htr]
      exact ⟨rfl, rfl⟩

def c5run : Option (ProjectionSystem × RendererState) :=
  ProjectionSystem.make.update rPlain (some frame2) (some frame2) 1 false

def c5s1 : ProjectionSystem := (c5run.getD (ProjectionSystem.make, rPlain)).1

def c5r1 : RendererState := (c5run.getD (ProjectionSystem.make, rPlain)).2

/-- Claim C5 witness: a concrete transform-free update leaves `b` and `c`
untouched. -/
theorem C5_witness :
    c5s1.projectionMatrix.b = ProjectionSystem.make.projectionMatrix.b
    ∧ c5s1.projectionMatrix.c = ProjectionSystem.make.projectionMatrix.c :=
  C5_bc_never_written.2 ProjectionSystem.make rPlain (some frame2) (some frame2)
    1 false c5s1 c5r1 rfl rfl

theorem ProjectionSystem.update_frames (ps : ProjectionSystem) (r : RendererState)
    (dF sF : Option Rectangle) (res : ℚ) (root : Bool)
    (s1 : ProjectionSystem) (r1 : RendererState)
    (h : ps.update r dF sF res root = some (s1, r1)) :
    s1.destinationFrame = (ps.resolveFrames dF sF).destinationFrame
    ∧ s1.sourceFrame = (ps.resolveFrames dF sF).sourceFrame
    ∧ s1.defaultFrame = ps.defaultFrame
    ∧ s1.transform = ps.transform := by
  rcases hres : (ps.resolveFrames dF sF).sourceFrame with _ | sf
  · rw [ProjectionSystem.update_unresolved ps r dF sF res root hres] at h
    exact Option.noConfusion h
  · rw [ProjectionSystem.update_resolved ps r dF sF res root sf hres] at h
    rw [Option.some.injEq, Prod.mk.injEq] at h
    obtain ⟨h1, -⟩ := h
    rw [← h1]
    exact ⟨rfl, hres, rfl, rfl⟩

/-! Claim C6. -/

/-- Claim C6: after one `update` with non-null destination `destA` and source
`srcA`, a later `update(null, null, ...)` resolves the stored frames to
`destA` and `srcA` again — frames persist across calls when omitted. -/
theorem C6_frames_persist (ps : ProjectionSystem) (r : RendererState)
    (destA srcA : Rectangle) (res : ℚ) (root : Bool)
    (s1 : ProjectionSystem) (r1 : RendererState)
    (res2 : ℚ) (root2 : Bool) (s2 : ProjectionSystem) (r2 : RendererState)
    (h1 : ps.update r (some destA) (some srcA) res root = some (s1, r1))
    (h2 : s1.update r1 none none res2 root2 = some (s2, r2)) :
    s2.destinationFrame = some destA ∧ s2.sourceFrame = some srcA := by
  obtain ⟨hd1, hs1, -, -⟩ :=
    ProjectionSystem.update_frames ps r (some destA) (some srcA) res root s1 r1 h1
  obtain ⟨hd2, hs2, -, -⟩ :=
    ProjectionSystem.update_frames s1 r1 none none res2 root2 s2 r2 h2
  simp only [ProjectionSystem.resolveFrames, jsOr_some, jsOr_none] at hd1 hs1 hd2 hs2
  rw [hd1] at hd2
  rw [hs1] at hs2
  simp only [jsOr_some] at hd2 hs2
  exact ⟨hd2, hs2⟩

def c6run1 : Option (ProjectionSystem × RendererState) :=
  ProjectionSystem.make.update rPlain (some frame800) (some frame2) 1 false

def c6s1 : ProjectionSystem := (c6run1.getD (ProjectionSystem.make, rPlain)).1

def c6r1 : RendererState := (c6run1.getD (ProjectionSystem.make, rPlain)).2

def c6run2 : Option (ProjectionSystem × RendererState) :=
  c6s1.update c6r1 none none 2 true

def c6s2 : ProjectionSystem := (c6run2.getD (ProjectionSystem.make, rPlain)).1

def c6r2 : RendererState := (c6run2.getD (ProjectionSystem.make, rPlain)).2

/-- Claim C6 witness: concrete frames persist across an `update(null, null)`
call that also changes resolution and root. -/
theorem C6_witness :
    c6s2.destinationFrame = some frame800 ∧ c6s2.sourceFrame = some frame2 :=
  C6_frames_persist ProjectionSystem.make rPlain frame800 frame2 1 false
    c6s1 c6r1 2 true c6s2 c6r2 rfl rfl

/-! Claim C3. -/

theorem ProjectionSystem.resolve_source_stable (ps ps2 : ProjectionSystem)
    (dF sF : Option Rectangle) (sf : Rectangle)
    (hres : (ps.resolveFrames dF sF).sourceFrame = some sf)
    (hsrc : ps2.sourceFrame = some sf) :
    (ps2.resolveFrames dF sF).sourceFrame = some sf := by
  cases sF
  · simp only [ProjectionSystem.resolveFrames, jsOr_none, hsrc, jsOr_some]
  · simp only [ProjectionSystem.resolveFrames, jsOr_some] at hres ⊢
    exact hres

def psShear : ProjectionSystem := { ProjectionSystem.make with transform := some shearT }

def c3run1 : Option (ProjectionSystem × RendererState) :=
  psShear.update rPlain (some frame2) (some frame2) 1 false

def c3s1 : ProjectionSystem := (c3run1.getD (ProjectionSystem.make, rPlain)).1

def c3r1 : RendererState := (c3run1.getD (ProjectionSystem.make, rPlain)).2

def c3run2 : Option (ProjectionSystem × RendererState) :=
  c3s1.update c3r1 (some frame2) (some frame2) 1 false

def c3s2 : ProjectionSystem := (c3run2.getD (ProjectionSystem.make, rPlain)).1

def c3r2 : RendererState := (c3run2.getD (ProjectionSystem.make, rPlain)).2

/-- Claim C3 fails on the code: with the shear transform
`{a:1, b:1, c:0, d:1, tx:0, ty:0}` set, two successive `update` calls with the
identical arguments `(frame2, frame2, 1, false)` give different projection
matrices — the `b` component is 1 after the first call and 2 after the
second, because `calculateProjection` never clears `b`/`c` and the transform
is appended onto the residue again. -/
theorem C3_counterexample :
    c3run1 = some (c3s1, c3r1) ∧ c3run2 = some (c3s2, c3r2)
      ∧ c3s2.projectionMatrix ≠ c3s1.projectionMatrix := by
  refine ⟨rfl, rfl, fun h => ?_⟩
  have hb := congrArg Matrix.b h
  have hb1 : c3s1.projectionMatrix.b = 1 := by
    norm_num [c3s1, c3run1, psShear, ProjectionSystem.make, ProjectionSystem.update,
      ProjectionSystem.resolveFrames, ProjectionSystem.calculateProjection,
      applyTransform, Matrix.append, Matrix.identity, shearT, frame2, jsOr,
      RendererState.push, rPlain]
  have hb2 : c3s2.projectionMatrix.b = 2 := by
    norm_num [c3s2, c3run2, c3s1, c3r1, c3run1, psShear, ProjectionSystem.make,
      ProjectionSystem.update, ProjectionSystem.resolveFrames,
      ProjectionSystem.calculateProjection, applyTransform, Matrix.append,
      Matrix.identity, shearT, frame2, jsOr, RendererState.push, rPlain]
  rw [hb1, hb2] at hb
  norm_num at hb

/-- Claim C3 (amended): calling `update` twice in succession with identical
arguments leaves `projectionMatrix` identical after the second call provided
`transform` is null; with a non-null transform whose `b` or `c` component is
nonzero the appended shear accumulates and idempotence fails. -/
theorem C3_idempotent_without_transform (ps : ProjectionSystem) (r : RendererState)
    (dF sF : Option Rectangle) (res : ℚ) (root : Bool)
    (s1 : ProjectionSystem) (r1 : RendererState)
    (s2 : ProjectionSystem) (r2 : RendererState)
    (htr : ps.transform = none)
    (h1 : ps.update r dF sF res root = some (s1, r1))
    (h2 : s1.update r1 dF sF res root = some (s2, r2)) :
    s2.projectionMatrix = s1.projectionMatrix := by
  rcases hres : (ps.resolveFrames dF sF).sourceFrame with _ | sf
  · rw [ProjectionSystem.update_unresolved ps r dF sF res root hres] at h1
    exact Option.noConfusion h1
  · rw [ProjectionSystem.update_resolved ps r dF sF res root sf hres] at h1
    rw [Option.some.injEq, Prod.mk.injEq] at h1
    obtain ⟨e1, -⟩ := h1
    have hpm1 : s1.projectionMatrix =
        ProjectionSystem.calculateProjection ps.projectionMatrix
          (ps.resolveFrames dF sF).destinationFrame sf res root := by
      rw [← e1, htr]
      rfl
    have hsrc1 : s1.sourceFrame = some sf := by
      rw [← e1]
      exact hres
    have htr1 : s1.transform = none := by
      rw [← e1]
      exact htr
    have hres2 := ProjectionSystem.resolve_source_stable ps s1 dF sF sf hres hsrc1
    rw [ProjectionSystem.update_resolved s1 r1 dF sF res root sf hres2] at h2
    rw [Option.some.injEq, Prod.mk.injEq] at h2
    obtain ⟨e2, -⟩ := h2
    have hpm2 : s2.projectionMatrix =
        ProjectionSystem.calculateProjection s1.projectionMatrix
          (s1.resolveFrames dF sF).destinationFrame sf res root := by
      rw [← e2, htr1]
      rfl
    rw [hpm2, hpm1]
    exact ProjectionSystem.calculateProjection_idem ps.projectionMatrix
      (ps.resolveFrames dF sF).destinationFrame
      ((s1.resolveFrames dF sF).destinationFrame) sf res res root

def c3ws2 : ProjectionSystem :=
  ((c5s1.update c5r1 (some frame2) (some frame2) 1 false).getD
    (ProjectionSystem.make, rPlain)).1

def c3wr2 : RendererState :=
  ((c5s1.update c5r1 (some frame2) (some frame2) 1 false).getD
    (ProjectionSystem.make, rPlain)).2

/-- Claim C3 witness: a transform-free double update at concrete arguments
leaves the projection matrix unchanged. -/
theorem C3_witness : c3ws2.projectionMatrix = c5s1.projectionMatrix :=
  C3_idempotent_without_transform ProjectionSystem.make rPlain
    (some frame2) (some frame2) 1 false c5s1 c5r1 c3ws2 c3wr2 rfl rfl rfl

/-! Claim C4. -/

/-- Claim C4: with a non-null `transform` set, the projection matrix after
`update` is exactly the derived projection with the transform appended, and
(with the spec's append semantics) mapping a point through the derived
projection and then through the transform agrees with mapping it through the
composed matrix — the transform acts after projection, in clip space. -/
theorem C4_transform_appended (ps : ProjectionSystem) (r : RendererState)
    (dF sF : Option Rectangle) (res : ℚ) (root : Bool) (t : Matrix) (sf : Rectangle)
    (s1 : ProjectionSystem) (r1 : RendererState)
    (htr : ps.transform = some t)
    (hsf : (ps.resolveFrames dF sF).sourceFrame = some sf)
    (h : ps.update r dF sF res root = some (s1, r1)) :
    s1.projectionMatrix =
      (ProjectionSystem.calculateProjection ps.projectionMatrix
        (ps.resolveFrames dF sF).destinationFrame sf res root).append t
    ∧ ∀ p : Point, s1.projectionMatrix.transformPoint p
        = t.transformPoint ((ProjectionSystem.calculateProjection ps.projectionMatrix
            (ps.resolveFrames dF sF).destinationFrame sf res root).transformPoint p) := by
  rw [ProjectionSystem.update_resolved ps r dF sF res root sf hsf] at h
  rw [Option.some.injEq, Prod.mk.injEq] at h
  obtain ⟨e1, -⟩ := h
  have hpm : s1.projectionMatrix =
      (ProjectionSystem.calculateProjection ps.projectionMatrix
        (ps.resolveFrames dF sF).destinationFrame sf res root).append t := by
    rw [← e1, htr]
    rfl
  refine ⟨hpm, fun p => ?_⟩
  rw [hpm]
  exact Matrix.transformPoint_append _ t p

/-- Claim C4 witness: the composition property at the concrete shear
transform, frame `{0,0,2,2}` and point `(3,5)`. -/
theorem C4_witness :
    c3s1.projectionMatrix.transformPoint ⟨3, 5⟩
      = shearT.transformPoint ((ProjectionSystem.calculateProjection
          psShear.projectionMatrix
          (psShear.resolveFrames (some frame2) (some frame2)).destinationFrame
          frame2 1 false).transformPoint ⟨3, 5⟩) :=
  (C4_transform_appended psShear rPlain (some frame2) (some frame2) 1 false
    shearT frame2 c3s1 c3r1 rfl rfl rfl).2 ⟨3, 5⟩

/-! Claim C9. -/

/-- Claim C9: on every successful `update`, the projection matrix is written
to the global uniform store and its `update()` upload is invoked; when no
shader is bound the uniform-group re-synchronization is skipped (no sync is
recorded, no error raised), and when a shader is bound its `globals` group is
re-synchronized. -/
theorem C9_shader_sync (ps : ProjectionSystem) (r : RendererState)
    (dF sF : Option Rectangle) (res : ℚ) (root : Bool)
    (s1 : ProjectionSystem) (r1 : RendererState)
    (h : ps.update r dF sF res root = some (s1, r1)) :
    r1.globalUniforms.projectionMatrix = some s1.projectionMatrix
    ∧ r1.globalUniforms.updateCount = r.globalUniforms.updateCount + 1
    ∧ (r.shader = none → r1.syncedGroups = r.syncedGroups)
    ∧ (∀ sh : Shader, r.shader = some sh →
        r1.syncedGroups = r.syncedGroups ++ [sh.globals]) := by
  rcases hres : (ps.resolveFrames dF sF).sourceFrame with _ | sf
  · rw [ProjectionSystem.update_unresolved ps r dF sF res root hres] at h
    exact Option.noConfusion h
  · rw [ProjectionSystem.update_resolved ps r dF sF res root sf hres] at h
    rw [Option.some.injEq, Prod.mk.injEq] at h
    obtain ⟨e1, e2⟩ := h
    rw [← e1, ← e2]
    refine ⟨rfl, rfl, fun hsh => ?_, fun sh hsh => ?_⟩
    · show (match r.shader with
        | some s => r.syncedGroups ++ [s.globals]
        | none => r.syncedGroups) = r.syncedGroups
      rw [hsh]
    · show (match r.shader with
        | some s => r.syncedGroups ++ [s.globals]
        | none => r.syncedGroups) = r.syncedGroups ++ [sh.globals]
      rw [hsh]

def c9run : Option (ProjectionSystem × RendererState) :=
  ProjectionSystem.make.update rBound (some frame2) (some frame2) 1 false

def c9s1 : ProjectionSystem := (c9run.getD (ProjectionSystem.make, rBound)).1

def c9r1 : RendererState := (c9run.getD (ProjectionSystem.make, rBound)).2

/-- Claim C9 witness: with shader group 7 bound, a concrete update records a
re-synchronization of that group. -/
theorem C9_witness : c9r1.syncedGroups = rBound.syncedGroups ++ [7] :=
  (C9_shader_sync ProjectionSystem.make rBound (some frame2) (some frame2)
    1 false c9s1 c9r1 rfl).2.2.2 ⟨7⟩ rfl

/-!
Parallel embedding over JavaScript number semantics, for the
degenerate-frame claim.  `JsNum` models an IEEE-754 double as either a
finite value (idealized as an exact rational — no rounding is involved in
the operations the claim exercises), a signed infinity, or NaN.  Division by
zero yields a signed infinity, `0 * Infinity` yields NaN, and NaN propagates
through every operation; no operation throws.
-/

inductive JsNum where
  | fin : ℚ → JsNum
  | inf : JsNum
  | ninf : JsNum
  | nan : JsNum
deriving DecidableEq, Repr

def JsNum.neg : JsNum → JsNum
  | .fin q => .fin (-q)
  | .inf => .ninf
  | .ninf => .inf
  | .nan => .nan

def JsNum.add : JsNum → JsNum → JsNum
  | .nan, _ => .nan
  | .fin p, .fin q => .fin (p + q)
  | .fin _, .inf => .inf
  | .fin _, .ninf => .ninf
  | .fin _, .nan => .nan
  | .inf, .fin _ => .inf
  | .inf, .inf => .inf
  | .inf, .ninf => .nan
  | .inf, .nan => .nan
  | .ninf, .fin _ => .ninf
  | .ninf, .inf => .nan
  | .ninf, .ninf => .ninf
  | .ninf, .nan => .nan

def JsNum.sub (x y : JsNum) : JsNum := x.add y.neg

def JsNum.mul : JsNum → JsNum → JsNum
  | .nan, _ => .nan
  | .fin p, .fin q => .fin (p * q)
  | .fin p, .inf => if p = 0 then .nan else if 0 < p then .inf else .ninf
  | .fin p, .ninf => if p = 0 then .nan else if 0 < p then .ninf else .inf
  | .fin _, .nan => .nan
  | .inf, .fin q => if q = 0 then .nan else if 0 < q then .inf else .ninf
  | .inf, .inf => .inf
  | .inf, .ninf => .ninf
  | .inf, .nan => .nan
  | .ninf, .fin q => if q = 0 then .nan else if 0 < q then .ninf else .inf
  | .ninf, .inf => .ninf
  | .ninf, .ninf => .inf
  | .ninf, .nan => .nan

def JsNum.div : JsNum → JsNum → JsNum
  | .nan, _ => .nan
  | .fin p, .fin q =>
      if q = 0 then (if p = 0 then .nan else if 0 < p then .inf else .ninf)
      else .fin (p / q)
  | .fin _, .inf => .fin 0
  | .fin _, .ninf => .fin 0
  | .fin _, .nan => .nan
  | .inf, .fin q => if 0 ≤ q then .inf else .ninf
  | .inf, .inf => .nan
  | .inf, .ninf => .nan
  | .inf, .nan => .nan
  | .ninf, .fin q => if 0 ≤ q then .ninf else .inf
  | .ninf, .inf => .nan
  | .ninf, .ninf => .nan
  | .ninf, .nan => .nan

/-- A rectangle whose components are JavaScript numbers. -/
structure JsRectangle where
  x : JsNum
  y : JsNum
  width : JsNum
  height : JsNum
deriving DecidableEq, Repr

/-- An affine matrix whose components are JavaScript numbers. -/
structure JsMatrix where
  a : JsNum
  b : JsNum
  c : JsNum
  d : JsNum
  tx : JsNum
  ty : JsNum
deriving DecidableEq, Repr

def JsMatrix.identity : JsMatrix := ⟨.fin 1, .fin 0, .fin 0, .fin 1, .fin 0, .fin 0⟩

/-- Modelled from the spec: `Matrix.append` under JavaScript arithmetic, with
the same composition order as the rational version. -/
def JsMatrix.append (m t : JsMatrix) : JsMatrix :=
  { a := (t.a.mul m.a).add (t.c.mul m.b)
    b := (t.b.mul m.a).add (t.d.mul m.b)
    c := (t.a.mul m.c).add (t.c.mul m.d)
    d := (t.b.mul m.c).add (t.d.mul m.d)
    tx := ((t.a.mul m.tx).add (t.c.mul m.ty)).add t.tx
    ty := ((t.b.mul m.tx).add (t.d.mul m.ty)).add t.ty }

/-- `ProjectionSystem` state under JavaScript arithmetic. -/
structure ProjectionSystemJs where
  destinationFrame : Option JsRectangle
  sourceFrame : Option JsRectangle
  defaultFrame : Option JsRectangle
  projectionMatrix : JsMatrix
  transform : Option JsMatrix
deriving DecidableEq, Repr

def ProjectionSystemJs.make : ProjectionSystemJs :=
  { destinationFrame := none
    sourceFrame := none
    defaultFrame := none
    projectionMatrix := JsMatrix.identity
    transform := none }

/-- Lines 77-78 of `update`, JavaScript-number version. -/
def ProjectionSystemJs.resolveFrames (ps : ProjectionSystemJs)
    (destinationFrame sourceFrame : Option JsRectangle) : ProjectionSystemJs :=
  { ps with
    destinationFrame := jsOr destinationFrame (jsOr ps.destinationFrame ps.defaultFrame)
    sourceFrame := jsOr sourceFrame (jsOr ps.sourceFrame destinationFrame) }

/-- `calculateProjection` under JavaScript arithmetic: the same four
assignments, with `/`, `*` and `-` interpreted on `JsNum`. -/
def ProjectionSystemJs.calculateProjection (pm : JsMatrix)
    (_destinationFrame : Option JsRectangle) (sourceFrame : JsRectangle)
    (_resolution : JsNum) (root : Bool) : JsMatrix :=
  let sign : JsNum := if !root then .fin 1 else .fin (-1)
  { pm with
    a := ((JsNum.fin 1).div sourceFrame.width).mul (.fin 2)
    d := sign.mul (((JsNum.fin 1).div sourceFrame.height).mul (.fin 2))
    tx := (JsNum.fin (-1)).sub
      (sourceFrame.x.mul (((JsNum.fin 1).div sourceFrame.width).mul (.fin 2)))
    ty := sign.neg.sub
      (sourceFrame.y.mul (sign.mul (((JsNum.fin 1).div sourceFrame.height).mul (.fin 2)))) }

def applyTransformJs (pm : JsMatrix) (transform : Option JsMatrix) : JsMatrix :=
  match transform with
  | some t => pm.append t
  | none => pm

/-- Modelled from the spec: the global uniform store over JavaScript
numbers. -/
structure UniformStoreJs where
  projectionMatrix : Option JsMatrix
  updateCount : Nat
deriving DecidableEq, Repr

/-- Modelled from the spec: the host renderer over JavaScript numbers. -/
structure RendererStateJs where
  globalUniforms : UniformStoreJs
  shader : Option Shader
  syncedGroups : List Nat
deriving DecidableEq, Repr

def RendererStateJs.push (r : RendererStateJs) (pm : JsMatrix) : RendererStateJs :=
  { globalUniforms :=
      { projectionMatrix := some pm
        updateCount := r.globalUniforms.updateCount + 1 }
    shader := r.shader
    syncedGroups :=
      match r.shader with
      | some s => r.syncedGroups ++ [s.globals]
      | none => r.syncedGroups }

/-- `update` under JavaScript arithmetic. -/
def ProjectionSystemJs.update (ps : ProjectionSystemJs) (r : RendererStateJs)
    (destinationFrame sourceFrame : Option JsRectangle)
    (resolution : JsNum) (root : Bool) :
    Option (ProjectionSystemJs × RendererStateJs) :=
  ((ps.resolveFrames destinationFrame sourceFrame).sourceFrame).map fun sf =>
    let pm := applyTransformJs
      (ProjectionSystemJs.calculateProjection ps.projectionMatrix
        (ps.resolveFrames destinationFrame sourceFrame).destinationFrame sf resolution root)
      ps.transform
    ({ ps.resolveFrames destinationFrame sourceFrame with projectionMatrix := pm },
     r.push pm)

theorem ProjectionSystemJs.updateJs_resolved (ps : ProjectionSystemJs)
    (r : RendererStateJs) (dF sF : Option JsRectangle) (res : JsNum) (root : Bool)
    (sf : JsRectangle) (h : (ps.resolveFrames dF sF).sourceFrame = some sf) :
    ps.update r dF sF res root =
      some ({ ps.resolveFrames dF sF with
                projectionMatrix := applyTransformJs
                  (ProjectionSystemJs.calculateProjection ps.projectionMatrix
                    (ps.resolveFrames dF sF).destinationFrame sf res root) ps.transform },
            r.push (applyTransformJs
                  (ProjectionSystemJs.calculateProjection ps.projectionMatrix
                    (ps.resolveFrames dF sF).destinationFrame sf res root) ps.transform)) := by
  unfold ProjectionSystemJs.update
  rw [h]
  rfl

/-! Claim C10. -/

/-- Claim C10: with a resolved source frame of zero width (resp. height),
`update` does not throw — it is defined and returns a result; the derived
scale `a` is `Infinity` (resp. `d` is `±Infinity` depending on `root`); the
degenerate matrix is written to `projectionMatrix` (unchanged when no
transform is set) and propagated as-is into the global uniform store.  No
validation occurs anywhere on the path. -/
theorem C10_degenerate_frame (ps : ProjectionSystemJs) (r : RendererStateJs)
    (dF sF : Option JsRectangle) (res : JsNum) (root : Bool) (sf : JsRectangle)
    (hsf : (ps.resolveFrames dF sF).sourceFrame = some sf) :
    (ps.update r dF sF res root).isSome = true
    ∧ (sf.width = .fin 0 →
        (ProjectionSystemJs.calculateProjection ps.projectionMatrix
          (ps.resolveFrames dF sF).destinationFrame sf res root).a = JsNum.inf)
    ∧ (sf.height = .fin 0 →
        (ProjectionSystemJs.calculateProjection ps.projectionMatrix
          (ps.resolveFrames dF sF).destinationFrame sf res root).d
          = (if root then JsNum.ninf else JsNum.inf))
    ∧ (∀ (s1 : ProjectionSystemJs) (r1 : RendererStateJs),
        ps.update r dF sF res root = some (s1, r1) →
        (ps.transform = none → s1.projectionMatrix =
          ProjectionSystemJs.calculateProjection ps.projectionMatrix
            (ps.resolveFrames dF sF).destinationFrame sf res root)
        ∧ r1.globalUniforms.projectionMatrix = some s1.projectionMatrix) := by
  refine ⟨?_, ?_, ?_, ?_⟩
  · rw [ProjectionSystemJs.updateJs_resolved ps r dF sF res root sf hsf]
    rfl
  · intro hw
    show ((JsNum.fin 1).div sf.width).mul (.fin 2) = JsNum.inf
    rw [hw]
    norm_num [JsNum.div, JsNum.mul]
  · intro hh
    cases root
    · show ((if !false then JsNum.fin 1 else JsNum.fin (-1)).mul
          (((JsNum.fin 1).div sf.height).mul (.fin 2))) = JsNum.inf
      rw [hh]
      norm_num [JsNum.div, JsNum.mul]
    · show ((if !true then JsNum.fin 1 else JsNum.fin (-1)).mul
          (((JsNum.fin 1).div sf.height).mul (.fin 2))) = JsNum.ninf
      rw [hh]
      norm_num [JsNum.div, JsNum.mul]
  · intro s1 r1 h
    rw [ProjectionSystemJs.updateJs_resolved ps r dF sF res root sf hsf] at h
    rw [Option.some.injEq, Prod.mk.injEq] at h
    obtain ⟨e1, e2⟩ := h
    constructor
    · intro htr
      rw [← e1, htr]
      rfl
    · rw [← e1, ← e2]
      rfl

def rJs : RendererStateJs := ⟨⟨none, 0⟩, none, []⟩

def frameZW : JsRectangle := ⟨.fin 0, .fin 0, .fin 0, .fin 600⟩

/-- Claim C10 witness: at the concrete zero-width frame
`{x:0, y:0, width:0, height:600}`, `update` succeeds and the derived `a`
component is `Infinity`. -/
theorem C10_witness :
    (ProjectionSystemJs.make.update rJs (some frameZW) (some frameZW)
        (.fin 1) false).isSome = true
    ∧ (ProjectionSystemJs.calculateProjection ProjectionSystemJs.make.projectionMatrix
        ((ProjectionSystemJs.make.resolveFrames (some frameZW) (some frameZW)).destinationFrame)
        frameZW (.fin 1) false).a = JsNum.inf :=
  ⟨(C10_degenerate_frame ProjectionSystemJs.make rJs (some frameZW) (some frameZW)
      (.fin 1) false frameZW rfl).1,
   (C10_degenerate_frame ProjectionSystemJs.make rJs (some frameZW) (some frameZW)
      (.fin 1) false frameZW rfl).2.1 rfl⟩

end Pixi
